import Mathlib

/-!
Verification of the `freshman2019` appliance-panel recognition pipeline.

A shallow embedding of the Python sources:
  * `freshman2019/camera/image/image.py`  — the `Image` base class,
  * `freshman2019/camera/color_image.py`  — `ColorImage`,
  * `freshman2019/camera/gray_image.py`   — `GrayImage`,
  * `freshman2019/camera/camera.py`       — the `Camera` recognition facade,
  * `freshman2019/bot.py`                 — the chat bot's `temp` command.

Numpy arrays are modelled as nested lists of naturals (pixel values);
OpenCV primitives whose pixel-level behaviour is irrelevant to the claims
are abstracted into a `Cv2` structure of function parameters, while their
documented shape contracts (e.g. `warpAffine`'s `dsize` is `(width,
height)`) are modelled concretely.  Python exceptions become an explicit
`PyErr` error type threaded through `Except`.
-/

/-- Python exception values, by class and message. -/
inductive PyErr where
  /-- `freshman2019.camera.recognition_error.RecognitionError` -/
  | recognitionError (msg : String)
  | assertionError (msg : String)
  | notImplementedError
  | nameError (msg : String)
  | valueError (msg : String)
  /-- any other exception class (e.g. `cv2.error`), by class name and message -/
  | other (cls msg : String)
deriving Repr, DecidableEq

/-- Is this exception a `RecognitionError`? -/
def PyErr.isRecognitionError : PyErr → Bool
  | .recognitionError _ => true
  | _ => false

/-- A numpy `ndarray` of rank 2 (grayscale pixels) or rank 3 (rows ×
columns × channels), as stored in `Image.data`. -/
inductive Mat where
  | mk2 (d : List (List Nat))
  | mk3 (d : List (List (List Nat)))
deriving Repr, DecidableEq

/-- A rank-1 numpy array (used for the morphology kernel built by
`numpy.ones(n)` with an integer `n`). -/
structure Mat1 where
  d : List Nat
deriving Repr, DecidableEq

/-- `ndarray.shape` of a rank-1 array. -/
def Mat1.shape (m : Mat1) : List Nat := [m.d.length]

/-- `ndarray.shape`: the list of dimensions. -/
def Mat.shape : Mat → List Nat
  | .mk2 d => [d.length, (d.headD []).length]
  | .mk3 d => [d.length, (d.headD []).length, ((d.headD []).headD []).length]

/-- `shape[0]`, the number of rows (image height). -/
def Mat.rows (m : Mat) : Nat := m.shape.headD 0

/-- `shape[1]`, the number of columns (image width). -/
def Mat.cols (m : Mat) : Nat := m.shape.getD 1 0

/-- image/image.py lines 57-63, `Image.nChannel`:
`n = shape[2] if len(shape) == 3 else 1`. -/
def Mat.nChannel (m : Mat) : Nat :=
  if m.shape.length = 3 then m.shape.getD 2 1 else 1

/-- Normalisation of one slice bound, per Python / numpy basic slicing:
a negative index counts from the end and the result is clamped into
`[0, n]`; slicing never raises for integer bounds. -/
def npNorm (n : Nat) (i : Int) : Nat :=
  if i < 0 then ((n : Int) + i).toNat else min i.toNat n

/-- `xs[l:u]` for a list, per Python / numpy basic slicing semantics. -/
def npSlice (l u : Int) (xs : List α) : List α :=
  let n := xs.length
  (xs.take (npNorm n u)).drop (npNorm n l)

/-- `self.data[y1:y2, x1:x2]`: slice the first two axes of the buffer. -/
def Mat.slice2 (m : Mat) (y1 y2 x1 x2 : Int) : Mat :=
  match m with
  | .mk2 d => .mk2 ((npSlice y1 y2 d).map (npSlice x1 x2))
  | .mk3 d => .mk3 ((npSlice y1 y2 d).map (npSlice x1 x2))

/-- `numpy.ones(n)` for an integer `n`: a rank-1 array of ones; negative
`n` raises `ValueError`. -/
def npOnes (n : Int) : Except PyErr Mat1 :=
  if n < 0 then .error (.valueError "negative dimensions are not allowed")
  else .ok ⟨List.replicate n.toNat 1⟩

/-- An OpenCV homography argument (`Optional[List[float]]` in the source;
the matrix entries are irrelevant to the claims). -/
abbrev Homog := List (List Rat)

/-- An OpenCV 2×3 affine matrix as returned by `getRotationMatrix2D`. -/
abbrev RotMat := List (List Rat)

/-- The OpenCV primitives the sources call, abstracted as function
parameters: the claims depend only on which primitive runs and on the
documented shape contracts, never on concrete pixel arithmetic.
`warpAffine` appears as a pixel-content function `warpAffinePix2` /
`warpAffinePix3`; its output shape is fixed by `cv2WarpAffine` below,
following the OpenCV contract. -/
structure Cv2 where
  /-- `cv2.cvtColor(data, cv2.COLOR_BGR2GRAY)` -/
  cvtColorGray : Mat → Mat
  /-- `cv2.medianBlur(data, ksize)` -/
  medianBlur : Mat → Int → Mat
  /-- `cv2.morphologyEx(src, op, kernel)` -/
  morphologyEx : Mat → Int → Mat1 → Mat
  /-- `cv2.createCLAHE(clipLimit, tileGridSize).apply(data)` -/
  claheApply : Rat → Int → Mat → Mat
  /-- `cv2.warpPerspective(data, homography, dsize)` -/
  warpPerspective : Mat → Homog → Int × Int → Mat
  /-- `cv2.getRotationMatrix2D(center, angle, scale)`; `center` is an
  `(x, y)` point, i.e. `(column, row)`, per the OpenCV documentation -/
  getRotationMatrix2D : Rat × Rat → Rat → Rat → RotMat
  /-- pixel content of `cv2.warpAffine` on a rank-2 source, at (row, col) -/
  warpAffinePix2 : Mat → RotMat → Nat × Nat → Nat → Nat → Nat
  /-- pixel content of `cv2.warpAffine` on a rank-3 source -/
  warpAffinePix3 : Mat → RotMat → Nat × Nat → Nat → Nat → Nat → Nat

/-- `cv2.warpAffine(src, M, dsize)`: per the OpenCV documentation,
`dsize` is `(width, height)`, so the output buffer has `dsize.2` rows and
`dsize.1` columns; rank and channel count follow the source. -/
def cv2WarpAffine (cv : Cv2) (src : Mat) (M : RotMat) (dsize : Nat × Nat) : Mat :=
  match src with
  | .mk2 _ =>
      .mk2 ((List.range dsize.2).map fun r =>
        (List.range dsize.1).map fun c => cv.warpAffinePix2 src M dsize r c)
  | .mk3 d =>
      .mk3 ((List.range dsize.2).map fun r =>
        (List.range dsize.1).map fun c =>
          (List.range ((d.headD []).headD []).length).map fun k =>
            cv.warpAffinePix3 src M dsize r c k)

/-- A concrete instantiation of the abstracted OpenCV primitives (used to
evaluate the embedded code on concrete inputs). -/
def cv2Trivial : Cv2 where
  cvtColorGray := fun _ => Mat.mk2 [[0]]
  medianBlur := fun m _ => m
  morphologyEx := fun m _ _ => m
  claheApply := fun _ _ m => m
  warpPerspective := fun m _ _ => m
  getRotationMatrix2D := fun _ _ _ => [[1, 0, 0], [0, 1, 0]]
  warpAffinePix2 := fun _ _ _ _ _ => 0
  warpAffinePix3 := fun _ _ _ _ _ _ => 0

/-! ## The `Image` class hierarchy -/

/-- A `ColorImage` value (color_image.py): wraps the numpy buffer. -/
structure ColorImage where
  data : Mat
deriving Repr, DecidableEq

/-- A `GrayImage` value (gray_image.py): wraps the numpy buffer. -/
structure GrayImage where
  data : Mat
deriving Repr, DecidableEq

/-- image/image.py lines 46-53, `Image.__init__` as specialised by
`ColorImage` (color_image.py lines 16-17, `isNChannelCorrect` is
`nChannel() == 3`): store the buffer and check the channel count.  On a
mismatch, building the `AssertionError` message evaluates the undefined
names `nDim` / `expectedNDim`, so the construction in fact fails with a
`NameError` (the latent defect acknowledged in the design notes). -/
def ColorImage.init (img : Mat) : Except PyErr ColorImage :=
  if img.nChannel = 3 then .ok ⟨img⟩
  else .error (.nameError "name nDim is not defined")

/-- image/image.py lines 46-53, `Image.__init__` as inherited by
`GrayImage`: gray_image.py overrides no `isNChannelCorrect`, so the base
method (image/image.py lines 43-44), which raises `NotImplementedError`,
runs before any channel comparison — every `GrayImage(...)` construction
raises, whatever the buffer. -/
def GrayImage.init (_img : Mat) : Except PyErr GrayImage :=
  .error .notImplementedError

/-- gray_image.py lines 15-17: `GrayImage.nChannel` is overridden as a
classmethod returning the constant `2`. -/
def GrayImage.nChannelCls : Nat := 2

/-- gray_image.py lines 19-23, `GrayImage.toGray`: `return self`. -/
def GrayImage.toGray (g : GrayImage) : GrayImage := g

/-- color_image.py lines 36-41, `ColorImage.toGray`:
`cv2.cvtColor(self.data, cv2.COLOR_BGR2GRAY)` wrapped in a new
`GrayImage(...)` construction. -/
def ColorImage.toGray (cv : Cv2) (c : ColorImage) : Except PyErr GrayImage :=
  GrayImage.init (cv.cvtColorGray c.data)

/-- image/image.py lines 148-155, `Image.trim`:
`x1, y1 = p1; x2, y2 = p2; self.data = self.data[y1:y2, x1:x2]`. -/
def Image.pyTrim (p1 p2 : Int × Int) (m : Mat) : Mat :=
  let x1 := p1.1
  let y1 := p1.2
  let x2 := p2.1
  let y2 := p2.2
  m.slice2 y1 y2 x1 x2

/-- image/image.py lines 90-94, `Image._warp`: `shape = (width, height)`;
`if homography is not None: self.data = cv2.warpPerspective(self.data,
homography, shape)`; `return self`. -/
def Image.pyWarp (cv : Cv2) (homography : Option Homog) (width height : Int)
    (m : Mat) : Mat :=
  let shape := (width, height)
  match homography with
  | some hm => cv.warpPerspective m hm shape
  | none => m

/-- image/image.py lines 99-108, `Image._rotate`:
`size = self.data.shape[0:2]; height, width = size;
center = (height/2, width/2);
matrix = cv2.getRotationMatrix2D(center, degree, scale=1.0);
self.data = cv2.warpAffine(self.data, M=matrix, dsize=size, ...)`.
Note `center` is handed to an OpenCV `(x, y)` parameter and `size =
(height, width)` is handed to `dsize`, which OpenCV reads as
`(width, height)`. -/
def Image.pyRotate (cv : Cv2) (degree : Rat) (m : Mat) : Mat :=
  let size : Nat × Nat := (m.rows, m.cols)
  let center : Rat × Rat := ((size.1 : Rat) / 2, (size.2 : Rat) / 2)
  let matrix := cv.getRotationMatrix2D center degree 1
  cv2WarpAffine cv m matrix size

/-- gray_image.py lines 79-92, `GrayImage.blur_median` (the `denoise`
operation): `assert (kernelSize % 2) == 1` (an `AssertionError` carrying
the given size otherwise), then `cv2.medianBlur(self.data, kernelSize)`.
Lean's `%` on `Int` agrees with Python's for the positive divisor 2. -/
def GrayImage.blur_median (cv : Cv2) (kernelSize : Int) (g : GrayImage) :
    Except PyErr GrayImage :=
  if kernelSize % 2 = 1 then .ok ⟨cv.medianBlur g.data kernelSize⟩
  else .error (.assertionError
    ("kernelSizeは奇数でなければなりません.(given= " ++ toString kernelSize ++ ") "))

/-- `cv2.MORPH_ERODE` -/
def MORPH_ERODE : Int := 0
/-- `cv2.MORPH_DILATE` -/
def MORPH_DILATE : Int := 1
/-- `cv2.MORPH_OPEN` -/
def MORPH_OPEN : Int := 2
/-- `cv2.MORPH_CLOSE` -/
def MORPH_CLOSE : Int := 3

/-- gray_image.py lines 57-59: `shape = (kernelSize) * 2` — integer
multiplication, not a shape tuple — then `kernel = numpy.ones(shape)`:
a rank-1 array of `2 * kernelSize` ones. -/
def GrayImage.morphKernel (kernelSize : Int) : Except PyErr Mat1 :=
  npOnes (kernelSize * 2)

/-- gray_image.py lines 50-65, `GrayImage.morphology`: build the kernel,
then `cv2.morphologyEx(src=self.data, op=method, kernel=kernel)`. -/
def GrayImage.morphology (cv : Cv2) (method : Int) (kernelSize : Int)
    (g : GrayImage) : Except PyErr GrayImage := do
  let kernel ← GrayImage.morphKernel kernelSize
  .ok ⟨cv.morphologyEx g.data method kernel⟩

/-- gray_image.py lines 67-68, `GrayImage.morph_erode`. -/
def GrayImage.morph_erode (cv : Cv2) (kernelSize : Int) (g : GrayImage) :
    Except PyErr GrayImage :=
  GrayImage.morphology cv MORPH_ERODE kernelSize g

/-- gray_image.py lines 70-71, `GrayImage.morph_dilate`. -/
def GrayImage.morph_dilate (cv : Cv2) (kernelSize : Int) (g : GrayImage) :
    Except PyErr GrayImage :=
  GrayImage.morphology cv MORPH_DILATE kernelSize g

/-- gray_image.py lines 73-74, `GrayImage.morph_open`. -/
def GrayImage.morph_open (cv : Cv2) (kernelSize : Int) (g : GrayImage) :
    Except PyErr GrayImage :=
  GrayImage.morphology cv MORPH_OPEN kernelSize g

/-- gray_image.py lines 76-77, `GrayImage.morph_close`. -/
def GrayImage.morph_close (cv : Cv2) (kernelSize : Int) (g : GrayImage) :
    Except PyErr GrayImage :=
  GrayImage.morphology cv MORPH_CLOSE kernelSize g

/-- gray_image.py lines 94-105, `GrayImage.normalize_clahe`:
`tile = (gridSize) * 2` (again integer multiplication), then
`cv2.createCLAHE(clipLimit, tileGridSize=tile).apply(self.data)`. -/
def GrayImage.normalize_clahe (cv : Cv2) (clipLimit : Rat) (gridSize : Int)
    (g : GrayImage) : GrayImage :=
  let tile := gridSize * 2
  ⟨cv.claheApply clipLimit tile g.data⟩

/-! ## Python `int(str)` and string helpers -/

/-- Python whitespace stripped by `int(str)`. -/
def pyIsSpace (c : Char) : Bool :=
  c = ' ' || c = '\t' || c = '\n' || c = '\x0d' || c = '\x0b' || c = '\x0c'

/-- Strip characters satisfying `p` from both ends. -/
def stripChars (p : Char → Bool) (s : List Char) : List Char :=
  ((s.dropWhile p).reverse.dropWhile p).reverse

/-- Numeric value of a decimal digit character. -/
def pyDigitVal (c : Char) : Nat := c.toNat - '0'.toNat

/-- Digit run of a Python integer literal: decimal digits with single
underscores allowed between digits (never leading, trailing or doubled). -/
def parseDigits (acc : Nat) : List Char → Option Nat
  | [] => some acc
  | c :: cs =>
    if c.isDigit then parseDigits (acc * 10 + pyDigitVal c) cs
    else if c = '_' then
      match cs with
      | [] => none
      | d :: cs2 =>
        if d.isDigit then parseDigits (acc * 10 + pyDigitVal d) cs2 else none
    else none

/-- CPython `int(str)`: strip whitespace, an optional single sign, then a
nonempty digit run; `none` models the `ValueError` on anything else. -/
def pyIntCore (s : List Char) : Option Int :=
  match stripChars pyIsSpace s with
  | [] => none
  | c :: rest =>
    if c = '+' then
      match rest with
      | [] => none
      | d :: _ => if d.isDigit then (parseDigits 0 rest).map Int.ofNat else none
    else if c = '-' then
      match rest with
      | [] => none
      | d :: _ =>
        if d.isDigit then (parseDigits 0 rest).map (fun n => -(Int.ofNat n))
        else none
    else if c.isDigit then (parseDigits 0 (c :: rest)).map Int.ofNat
    else none

/-- `int(s)` on a string value. -/
def pyInt (s : String) : Option Int := pyIntCore s.toList

/-- `s.startswith(c)` for a single-character prefix. -/
def pyStartsWith (c : Char) (s : String) : Bool :=
  match s.toList with
  | [] => false
  | x :: _ => x = c

/-- `s.lstrip(c)` for a single strip character: drop every leading `c`. -/
def pyLstrip (c : Char) (s : String) : String :=
  ⟨s.toList.dropWhile (fun x => x = c)⟩

/-! ## The `Camera` recognition facade (camera.py) -/

/-- camera.py lines 65-69, `Camera.isValidTemperature`:
`(10 < t) and (t < 40)`. -/
def Camera.isValidTemperature (t : Int) : Bool := 10 < t && t < 40

/-- Modelled from the spec: the no-argument `denoise()` the facade calls
(camera.py line 85).  The image-package module defining the no-argument
form and its default kernel size is not in this tree; §4.1 specifies
median-filter smoothing with an odd kernel size, embodied here by
`blur_median` with an odd default. -/
def GrayImage.denoise (cv : Cv2) (g : GrayImage) : Except PyErr GrayImage :=
  GrayImage.blur_median cv 3 g

/-- Modelled from the spec: the no-argument `normalize_clahe()` the facade
calls (camera.py line 86).  The module supplying the default `clipLimit`
and `gridSize` is not in this tree; §4.1 specifies localized contrast
equalization over tiles, embodied here by `normalize_clahe` with fixed
defaults. -/
def GrayImage.normalize_clahe0 (cv : Cv2) (g : GrayImage) :
    Except PyErr GrayImage :=
  .ok (GrayImage.normalize_clahe cv 2 8 g)

/-- camera.py lines 71-88, `Camera.getPanelImage` / `getTemperetureImage`.
The capture and alignment stages (`queryReader.read()` and
`trimmer.trim()`, whose modules are not in this tree) are abstracted into
the `panel` argument: their combined outcome, which the facade uses with
no exception handler.  Then, per the source: crop the fixed temperature
sub-rectangle `p1=(470, 240)`, `p2=(545, 330)`, convert to grayscale,
denoise, and CLAHE-normalize — with no exception handler anywhere. -/
def Camera.getTemperetureImage (cv : Cv2) (panel : Except PyErr ColorImage) :
    Except PyErr GrayImage := do
  let panelImage ← panel
  let tempImage : ColorImage := ⟨Image.pyTrim (470, 240) (545, 330) panelImage.data⟩
  let g1 ← ColorImage.toGray cv tempImage
  let g2 ← GrayImage.denoise cv g1
  GrayImage.normalize_clahe0 cv g2

/-- camera.py lines 49-58, the tail of `Camera.get_temperature`:
`int(tempText)`, with the `ValueError` caught and re-raised as
`RecognitionError("got " + tempText)`; then
`RecognitionError("got %d" % tempInt)` unless `isValidTemperature`. -/
def Camera.temperatureFromText (tempText : String) : Except PyErr Int :=
  match pyInt tempText with
  | none => .error (.recognitionError ("got " ++ tempText))
  | some tempInt =>
    if !(Camera.isValidTemperature tempInt) then
      .error (.recognitionError ("got " ++ toString tempInt))
    else .ok tempInt

/-- camera.py lines 35-58, `Camera.get_temperature`: prepared image, OCR
(`recognizer.imageToText`, whose module is not in this tree, abstracted as
the `ocr` argument), then parse and validate.  Only the parse and
validation steps have exception handlers. -/
def Camera.get_temperature (cv : Cv2) (panel : Except PyErr ColorImage)
    (ocr : GrayImage → Except PyErr String) : Except PyErr Int := do
  let tempImg ← Camera.getTemperetureImage cv panel
  let tempText ← ocr tempImg
  Camera.temperatureFromText tempText

/-! ## The bot `temp` command (bot.py) -/

/-- bot.py line 11. -/
def Bot.MAX_TEMP : Int := 30

/-- bot.py line 12. -/
def Bot.MIN_TEMP : Int := 18

/-- bot.py lines 253-264, the delta computation of `Bot.temp` on argument
`t` and the recognised `current_temp`; `none` from `pyInt` models the
`ValueError` branch that replies "invalid argument" and returns. -/
def Bot.tempDelta (t : String) (current_temp : Int) : Except PyErr Int :=
  if pyStartsWith '+' t then
    match pyInt (pyLstrip '+' t) with
    | none => .error (.valueError "invalid literal for int with base 10")
    | some x => .ok (min (x + current_temp) Bot.MAX_TEMP - current_temp)
  else if pyStartsWith '-' t then
    match pyInt (pyLstrip '-' t) with
    | none => .error (.valueError "invalid literal for int with base 10")
    | some x => .ok (max (current_temp - x) Bot.MIN_TEMP - current_temp)
  else
    match pyInt t with
    | none => .error (.valueError "invalid literal for int with base 10")
    | some x => .ok (max (min x Bot.MAX_TEMP) Bot.MIN_TEMP - current_temp)

/-- bot.py line 266: `target_temp = current_temp + delta`. -/
def Bot.tempTarget (t : String) (current_temp : Int) : Except PyErr Int :=
  (Bot.tempDelta t current_temp).map (fun delta => current_temp + delta)

/-! ## Concrete fixtures -/

/-- A 2×2 single-channel (rank-2) buffer. -/
def matGray2x2 : Mat := .mk2 [[1, 2], [3, 4]]

/-- A 2×4 single-channel buffer (2 rows, 4 columns). -/
def matGray2x4 : Mat := .mk2 [[1, 2, 3, 4], [5, 6, 7, 8]]

/-- A 1×1 three-channel buffer. -/
def matColor1 : Mat := .mk3 [[[1, 2, 3]]]

/-- A grayscale image value over `matGray2x2`. -/
def grayImg0 : GrayImage := ⟨matGray2x2⟩

/-- A color image value over `matColor1`. -/
def colorImg0 : ColorImage := ⟨matColor1⟩

/-- An OCR backend that always reads "25". -/
def ocr25 : GrayImage → Except PyErr String := fun _ => .ok "25"

/-- The claim's side condition, following the spec's words: the
axis-aligned rectangle between `p1` and `p2` exceeds the buffer's
extents. -/
def specRectExceeds (p1 p2 : Int × Int) (m : Mat) : Bool :=
  p1.1 < 0 || p1.2 < 0 || (m.cols : Int) < p2.1 || (m.rows : Int) < p2.2

/-! ## Claim theorems -/

/-- C9: calling `warp` with a missing (`None`) homography leaves the
pixel buffer unchanged, regardless of the width and height arguments. -/
theorem warp_none_leaves_buffer_unchanged :
    ∀ (cv : Cv2) (width height : Int) (m : Mat),
      Image.pyWarp cv none width height m = m := by
  intro cv width height m
  rfl

/-- C6: `toGray` is idempotent: applied to an already-grayscale image it
returns its input unchanged (`return self`), hence for every color image
applying `toGray` again to the result of `toGray` changes nothing. -/
theorem toGray_idempotent :
    (∀ g : GrayImage, GrayImage.toGray g = g) ∧
    (∀ (cv : Cv2) (c : ColorImage),
      (ColorImage.toGray cv c).map GrayImage.toGray = ColorImage.toGray cv c) := by
  constructor
  · intro g
    rfl
  · intro cv c
    cases h : ColorImage.toGray cv c with
    | error e => simp [Except.map]
    | ok g => simp [Except.map, GrayImage.toGray]

/-- C5: the median-filter denoise operation (`blur_median`) fails with
the invalid-parameter `AssertionError` for every even kernel size, and
for every odd kernel size raises no such condition — it applies
`cv2.medianBlur` and returns. -/
theorem blur_median_parity :
    ∀ (cv : Cv2) (k : Int) (g : GrayImage),
      (Even k → GrayImage.blur_median cv k g =
        .error (.assertionError
          ("kernelSizeは奇数でなければなりません.(given= " ++ toString k ++ ") "))) ∧
      (Odd k → GrayImage.blur_median cv k g = .ok ⟨cv.medianBlur g.data k⟩) := by
  intro cv k g
  constructor
  · intro he
    have h0 : k % 2 = 0 := Int.even_iff.mp he
    simp [GrayImage.blur_median, h0]
  · intro ho
    have h1 : k % 2 = 1 := Int.odd_iff.mp ho
    simp [GrayImage.blur_median, h1]

/-- Witness for C5 at kernel sizes 4 (even) and 3 (odd). -/
theorem blur_median_parity_witness :
    GrayImage.blur_median cv2Trivial 4 grayImg0 =
      .error (.assertionError
        ("kernelSizeは奇数でなければなりません.(given= " ++ toString (4 : Int) ++ ") ")) ∧
    GrayImage.blur_median cv2Trivial 3 grayImg0 =
      .ok ⟨cv2Trivial.medianBlur grayImg0.data 3⟩ := by
  constructor
  · exact (blur_median_parity cv2Trivial 4 grayImg0).1 (by decide)
  · exact (blur_median_parity cv2Trivial 3 grayImg0).2 (by decide)

/-- C1: the validity predicate is strictly `10 < t` and `t < 40`; for
every OCR text parsing as an integer `D` with `10 < D < 40` the facade's
temperature computation returns exactly `D`, and for a parsed `D ≤ 10` or
`D ≥ 40` it raises `RecognitionError` carrying the rejected value. -/
theorem camera_get_temperature_range_validation :
    (∀ t : Int, Camera.isValidTemperature t = true ↔ (10 < t ∧ t < 40)) ∧
    (∀ (text : String) (D : Int), pyInt text = some D →
      ((10 < D ∧ D < 40) → Camera.temperatureFromText text = .ok D) ∧
      ((D ≤ 10 ∨ 40 ≤ D) → Camera.temperatureFromText text =
        .error (.recognitionError ("got " ++ toString D)))) := by
  constructor
  · intro t
    simp [Camera.isValidTemperature]
  · intro text D h
    constructor
    · intro hr
      have hv : Camera.isValidTemperature D = true := by
        simp [Camera.isValidTemperature]
        omega
      simp [Camera.temperatureFromText, h, hv]
    · intro hr
      have hv : Camera.isValidTemperature D = false := by
        simp [Camera.isValidTemperature]
        omega
      simp [Camera.temperatureFromText, h, hv]

/-- Witness for C1 at the OCR texts "25" (in range) and "45" (out of
range). -/
theorem camera_get_temperature_range_validation_witness :
    Camera.temperatureFromText "25" = .ok 25 ∧
    Camera.temperatureFromText "45" =
      .error (.recognitionError ("got " ++ toString (45 : Int))) := by
  constructor
  · exact (camera_get_temperature_range_validation.2 "25" 25 (by rfl)).1 (by decide)
  · exact (camera_get_temperature_range_validation.2 "45" 45 (by rfl)).2 (by decide)

/-- C3: evaluation of the code at the claim's inputs.  Constructing the
grayscale variant from a valid 1-channel buffer does not succeed: every
`GrayImage` construction raises `NotImplementedError`, because
gray_image.py overrides no `isNChannelCorrect` and its `nChannel`
classmethod returns the constant 2 rather than the variant's 1-channel
tag.  (The color variant behaves as claimed on a 3-channel buffer, and
does fail on a 1-channel buffer — though via the `NameError` latent in
the mismatch message.) -/
theorem grayimage_construction_raises_not_implemented :
    GrayImage.init matGray2x2 = .error .notImplementedError ∧
    Mat.nChannel matGray2x2 = 1 ∧
    GrayImage.nChannelCls = 2 ∧
    ColorImage.init matGray2x2 = .error (.nameError "name nDim is not defined") ∧
    ColorImage.init matColor1 = .ok ⟨matColor1⟩ :=
  ⟨rfl, rfl, rfl, rfl, rfl⟩

/-- C7: evaluation of the code at a non-square buffer.  `_rotate` hands
`dsize=(height, width)` to `cv2.warpAffine`, which reads `dsize` as
`(width, height)`, so the output buffer of a 2×4 input has shape 4×2 —
the dimensions are transposed, not preserved, whatever the angle and
whatever the OpenCV pixel behaviour. -/
theorem rotate_transposes_output_dims :
    ∀ (cv : Cv2) (degree : Rat),
      (Image.pyRotate cv degree matGray2x4).shape = [4, 2] ∧
      matGray2x4.shape = [2, 4] := by
  intro cv degree
  exact ⟨rfl, rfl⟩

/-- C8: evaluation of the kernel construction at `kernelSize = 3`.
`shape = (kernelSize) * 2` is integer multiplication (not the intended
`(kernelSize,) * 2` shape tuple), so `numpy.ones(shape)` is a rank-1
array of 6 ones — shape `[6]`, not the square `[3, 3]` — and that is the
kernel `morphology` hands to `cv2.morphologyEx`. -/
theorem morphology_kernel_is_one_dimensional :
    GrayImage.morphKernel 3 = .ok ⟨List.replicate 6 1⟩ ∧
    (Mat1.mk (List.replicate 6 1)).shape = [6] ∧
    GrayImage.morphology cv2Trivial MORPH_ERODE 3 grayImg0 =
      .ok ⟨cv2Trivial.morphologyEx grayImg0.data MORPH_ERODE ⟨List.replicate 6 1⟩⟩ :=
  ⟨rfl, rfl, rfl⟩

/-- C2 counterexample: with capture and alignment succeeding, the
facade's own enhancement chain fails (the `GrayImage` construction inside
`toGray` raises `NotImplementedError`) and that exception crosses the
facade boundary unwrapped: `get_temperature` raises something other than
`RecognitionError`. -/
theorem facade_stage_error_crosses_unwrapped_cex :
    Camera.get_temperature cv2Trivial (.ok colorImg0) ocr25 =
      .error .notImplementedError ∧
    PyErr.isRecognitionError .notImplementedError = false :=
  ⟨rfl, rfl⟩

/-- C2 (amended): the facade wraps only OCR-text parse failures and
range-validation failures in `RecognitionError`; a failure of any earlier
stage (capture, alignment, enhancement, OCR) is not caught and crosses
the facade boundary unchanged. -/
theorem facade_error_propagation_amended :
    (∀ (cv : Cv2) (ocr : GrayImage → Except PyErr String) (e : PyErr),
      Camera.get_temperature cv (.error e) ocr = .error e) ∧
    (∀ text : String, pyInt text = none →
      Camera.temperatureFromText text =
        .error (.recognitionError ("got " ++ text))) ∧
    (∀ (text : String) (D : Int), pyInt text = some D →
      Camera.isValidTemperature D = false →
      Camera.temperatureFromText text =
        .error (.recognitionError ("got " ++ toString D))) := by
  refine ⟨?_, ?_, ?_⟩
  · intro cv ocr e
    rfl
  · intro text h
    simp [Camera.temperatureFromText, h]
  · intro text D h hv
    simp [Camera.temperatureFromText, h, hv]

/-- Witness for C2 (amended): a capture-stage `cv2.error` crosses
unchanged; the unparsable OCR text "abc" and the out-of-range text "45"
are wrapped in `RecognitionError`. -/
theorem facade_error_propagation_amended_witness :
    Camera.get_temperature cv2Trivial
        (.error (.other "cv2.error" "capture failed")) ocr25 =
      .error (.other "cv2.error" "capture failed") ∧
    Camera.temperatureFromText "abc" =
      .error (.recognitionError ("got " ++ "abc")) ∧
    Camera.temperatureFromText "45" =
      .error (.recognitionError ("got " ++ toString (45 : Int))) := by
  refine ⟨facade_error_propagation_amended.1 cv2Trivial ocr25 _, ?_, ?_⟩
  · exact facade_error_propagation_amended.2.1 "abc" (by rfl)
  · exact facade_error_propagation_amended.2.2 "45" 45 (by rfl) (by decide)

/-- For a nonnegative bound, slice normalisation is a clamp to the list
length. -/
theorem npNorm_nonneg_eq (n : Nat) (i : Int) (h : 0 ≤ i) :
    npNorm n i = min i.toNat n := by
  rw [npNorm, if_neg (not_lt.mpr h)]

/-- Length of a Python slice with nonnegative bounds. -/
theorem npSlice_length_nonneg (l u : Int) (hl : 0 ≤ l) (hu : 0 ≤ u)
    (xs : List α) :
    (npSlice l u xs).length = min u.toNat xs.length - min l.toNat xs.length := by
  simp [npSlice, npNorm_nonneg_eq _ _ hl, npNorm_nonneg_eq _ _ hu,
    List.length_drop, List.length_take]

/-- Every element of a Python slice is an element of the list. -/
theorem npSlice_mem (l u : Int) (xs : List α) :
    ∀ r ∈ npSlice l u xs, r ∈ xs := by
  intro r hr
  rw [npSlice] at hr
  exact List.mem_of_mem_take (List.mem_of_mem_drop hr)

/-- C4 counterexample: on a 2×2 buffer, the rectangle `(0,0)`–`(5,5)`
exceeds the extents, yet `trim` raises nothing — it is a total slicing
operation — and returns the silently clamped crop (here, the whole
buffer). -/
theorem trim_out_of_bounds_silently_clamps_cex :
    Image.pyTrim (0, 0) (5, 5) matGray2x2 = matGray2x2 ∧
    specRectExceeds (0, 0) (5, 5) matGray2x2 = true := by
  exact ⟨rfl, rfl⟩

/-- C4 (amended): `trim` never fails; numpy basic-slicing semantics
silently clamp the rectangle to the buffer's extents — for nonnegative
coordinates the result has `min(y2,h) - min(y1,h)` rows of
`min(x2,w) - min(x1,w)` columns each. -/
theorem trim_clamps_to_extents_amended :
    ∀ (d : List (List Nat)) (w : Nat) (x1 y1 x2 y2 : Int),
      0 ≤ x1 → 0 ≤ y1 → 0 ≤ x2 → 0 ≤ y2 →
      (∀ r ∈ d, r.length = w) →
      ∃ d2, Image.pyTrim (x1, y1) (x2, y2) (Mat.mk2 d) = Mat.mk2 d2 ∧
        d2.length = min y2.toNat d.length - min y1.toNat d.length ∧
        ∀ r ∈ d2, r.length = min x2.toNat w - min x1.toNat w := by
  intro d w x1 y1 x2 y2 hx1 hy1 hx2 hy2 hw
  refine ⟨(npSlice y1 y2 d).map (npSlice x1 x2), rfl, ?_, ?_⟩
  · rw [List.length_map, npSlice_length_nonneg _ _ hy1 hy2]
  · intro r hr
    rcases List.mem_map.mp hr with ⟨r0, hr0, rfl⟩
    rw [npSlice_length_nonneg _ _ hx1 hx2, hw r0 (npSlice_mem _ _ _ r0 hr0)]

/-- Witness for C4 (amended) on a 2×2 buffer with the out-of-bounds
rectangle `(1,0)`–`(5,5)`. -/
theorem trim_clamps_to_extents_amended_witness :
    ∃ d2, Image.pyTrim (1, 0) (5, 5) (Mat.mk2 [[1, 2], [3, 4]]) = Mat.mk2 d2 ∧
      d2.length = min (5 : Int).toNat 2 - min (0 : Int).toNat 2 ∧
      ∀ r ∈ d2, r.length = min (5 : Int).toNat 2 - min (1 : Int).toNat 2 := by
  exact trim_clamps_to_extents_amended [[1, 2], [3, 4]] 2 1 0 5 5
    (by decide) (by decide) (by decide) (by decide) (by decide)

/-- C10: the bot's `temp` command clamps to `[18, 30]`: a plain integer
argument `X` yields target `max(min(X, 30), 18)`; a `+X` argument
(`X ≥ 0`) yields `min(current + X, 30)`, which never exceeds 30 and
never drops below a current setpoint that is at most 30; a `-X` argument
yields `max(current - X, 18)`, which never drops below 18 and never
exceeds a current setpoint that is at least 18. -/
theorem bot_temp_clamps_to_18_30 :
    (∀ (t : String) (cur X : Int),
      pyStartsWith '+' t = false → pyStartsWith '-' t = false →
      pyInt t = some X →
      Bot.tempTarget t cur = .ok (max (min X 30) 18)) ∧
    (∀ (t : String) (cur X : Int),
      pyStartsWith '+' t = true →
      pyInt (pyLstrip '+' t) = some X → 0 ≤ X →
      Bot.tempTarget t cur = .ok (min (X + cur) 30) ∧
      min (X + cur) 30 ≤ 30 ∧
      (cur ≤ 30 → cur ≤ min (X + cur) 30)) ∧
    (∀ (t : String) (cur X : Int),
      pyStartsWith '+' t = false → pyStartsWith '-' t = true →
      pyInt (pyLstrip '-' t) = some X → 0 ≤ X →
      Bot.tempTarget t cur = .ok (max (cur - X) 18) ∧
      18 ≤ max (cur - X) 18 ∧
      (18 ≤ cur → max (cur - X) 18 ≤ cur)) := by
  refine ⟨?_, ?_, ?_⟩
  · intro t cur X hp hm h
    simp [Bot.tempTarget, Bot.tempDelta, hp, hm, h, Bot.MAX_TEMP, Bot.MIN_TEMP,
      Except.map]
  · intro t cur X hp h hX
    refine ⟨?_, min_le_right _ _, fun hc => le_min (by omega) hc⟩
    simp [Bot.tempTarget, Bot.tempDelta, hp, h, Bot.MAX_TEMP, Except.map]
  · intro t cur X hp hm h hX
    refine ⟨?_, le_max_right _ _, fun hc => max_le (by omega) hc⟩
    simp [Bot.tempTarget, Bot.tempDelta, hp, hm, h, Bot.MIN_TEMP, Except.map]

/-- Witness for C10 at `temp 25` (plain), `temp +4` from 28 and
`temp -4` from 19. -/
theorem bot_temp_clamps_to_18_30_witness :
    Bot.tempTarget "25" 20 = .ok (max (min 25 30) 18) ∧
    Bot.tempTarget "+4" 28 = .ok (min (4 + 28) 30) ∧
    Bot.tempTarget "-4" 19 = .ok (max (19 - 4) 18) := by
  refine ⟨bot_temp_clamps_to_18_30.1 "25" 20 25 rfl rfl rfl,
    (bot_temp_clamps_to_18_30.2.1 "+4" 28 4 rfl rfl (by decide)).1,
    (bot_temp_clamps_to_18_30.2.2 "-4" 19 4 rfl rfl rfl (by decide)).1⟩
